import Mathlib

/-!
Verification of the ethernet-interface namespace of the vendored pango
client library (netw/eth/eth.go): normalized entries, the two versioned
wire schemas with their Normalize/specify mappings, xpath construction,
and the Set/Edit/Delete operations modelled as trace-producing functions
over a stub transport.
-/

set_option maxHeartbeats 1000000

namespace Pango

/-- Modelled from the spec: the util package is not part of the sources;
boolean fields use an explicit two-valued wire token representation.
`YesNo` maps a boolean to its wire token. -/
def YesNo (b : Bool) : String := if b then "yes" else "no"

/-- Modelled from the spec: inverse of the boolean-to-wire-token
conversion; the affirmative token reads back as true. -/
def AsBool (s : String) : Bool := s == "yes"

def dropWhileWs : List Char → List Char
  | [] => []
  | c :: cs => if c.isWhitespace then dropWhileWs cs else c :: cs

/-- Modelled from the spec: util.CleanRawXml trims insignificant
surrounding whitespace from an opaque pass-through fragment so that
round-trips are stable. -/
def CleanRawXml (s : String) : String :=
  String.mk ((dropWhileWs ((dropWhileWs s.data.reverse)).reverse))

/-- Modelled from the spec: util.StrToEnt wraps a list of names as a
wire entry list; an empty list is represented as an absent element. -/
def StrToEnt (xs : List String) : Option (List String) :=
  if xs = [] then none else some xs

/-- Modelled from the spec: util.EntToStr extracts the names from a wire
entry list; an absent element yields the empty list. -/
def EntToStr : Option (List String) → List String
  | none => []
  | some xs => xs

/-- Modelled from the spec: util.AsEntryXpath renders an entry selector
segment encoding zero or more names. -/
def AsEntryXpath (vals : List String) : String :=
  "entry[" ++ String.intercalate " or " (vals.map (fun v => "@name=" ++ v)) ++ "]"

/-- Modelled from the spec: version.Number, the 4-component device
software version (major, minor, patch, suffix) used as a selector key. -/
structure Number where
  Major : Nat
  Minor : Nat
  Patch : Nat
  Suffix : String
deriving DecidableEq

/-- Modelled from the spec: version.Number.Gte, the greater-or-equal
ordering on versions, comparing major, then minor, then patch. -/
def Number.Gte (v o : Number) : Bool :=
  if v.Major ≠ o.Major then decide (v.Major > o.Major)
  else if v.Minor ≠ o.Minor then decide (v.Minor > o.Minor)
  else decide (v.Patch ≥ o.Patch)

/-- util.RawXml: an opaque pass-through wire fragment. -/
structure RawXml where
  Text : String
deriving DecidableEq

/-- Entry is the normalized, version independent representation of an
ethernet interface (eth.go lines 17-40).  The Go nil map is modelled as
`none`; a non-nil map as `some` of an association list in the insertion
order Normalize uses. -/
structure Entry where
  Name : String := ""
  Mode : String := ""
  StaticIps : List String := []
  EnableDhcp : Bool := false
  CreateDhcpDefaultRoute : Bool := false
  DhcpDefaultRouteMetric : Int := 0
  Ipv6Enabled : Bool := false
  ManagementProfile : String := ""
  Mtu : Int := 0
  AdjustTcpMss : Bool := false
  NetflowProfile : String := ""
  LldpEnabled : Bool := false
  LldpProfile : String := ""
  LinkSpeed : String := ""
  LinkDuplex : String := ""
  LinkState : String := ""
  AggregateGroup : String := ""
  Comment : String := ""
  Ipv4MssAdjust : Int := 0
  Ipv6MssAdjust : Int := 0
  raw : Option (List (String × String)) := none
deriving DecidableEq

/-- Entry.Copy (eth.go lines 44-64): copies every exported field except
Name from s onto o; the unexported raw map is not among the copied
fields.  The Go in-place mutation is modelled by returning the updated
receiver. -/
def Entry.Copy (o : Entry) (s : Entry) : Entry :=
  { o with
    Mode := s.Mode
    StaticIps := s.StaticIps
    EnableDhcp := s.EnableDhcp
    CreateDhcpDefaultRoute := s.CreateDhcpDefaultRoute
    DhcpDefaultRouteMetric := s.DhcpDefaultRouteMetric
    Ipv6Enabled := s.Ipv6Enabled
    ManagementProfile := s.ManagementProfile
    Mtu := s.Mtu
    AdjustTcpMss := s.AdjustTcpMss
    NetflowProfile := s.NetflowProfile
    LldpEnabled := s.LldpEnabled
    LldpProfile := s.LldpProfile
    LinkSpeed := s.LinkSpeed
    LinkDuplex := s.LinkDuplex
    LinkState := s.LinkState
    AggregateGroup := s.AggregateGroup
    Comment := s.Comment
    Ipv4MssAdjust := s.Ipv4MssAdjust
    Ipv6MssAdjust := s.Ipv6MssAdjust }

/-- emptyMode: the empty struct marking presence of a field-less mode. -/
structure emptyMode where
  unit : Unit := ()
deriving DecidableEq

/-- otherMode: the shared wire shape of the layer2 and virtual-wire
mode sub-structures. -/
structure otherMode where
  LldpEnabled : String := ""
  LldpProfile : String := ""
  NetflowProfile : String := ""
  Subinterface : Option RawXml := none
deriving DecidableEq

/-- ipv6: the nested ipv6 element of the layer3 mode. -/
structure ipv6 where
  Enabled : String := ""
  Address : Option RawXml := none
deriving DecidableEq

/-- dhcpSettings: the dhcp-client element of the layer3 mode. -/
structure dhcpSettings where
  Enable : String := ""
  CreateDefaultRoute : String := ""
  Metric : Int := 0
deriving DecidableEq

/-- l3Mode_v1: the layer3 mode sub-structure of the v1 wire schema. -/
structure l3Mode_v1 where
  Ipv6 : ipv6 := {}
  ManagementProfile : String := ""
  Mtu : Int := 0
  NetflowProfile : String := ""
  AdjustTcpMss : String := ""
  StaticIps : Option (List String) := none
  Dhcp : Option dhcpSettings := none
  Arp : Option RawXml := none
  Subinterface : Option RawXml := none
deriving DecidableEq

/-- entry_v1: the v1 wire schema for one ethernet interface entry. -/
structure entry_v1 where
  Name : String := ""
  ModeL2 : Option otherMode := none
  ModeL3 : Option l3Mode_v1 := none
  ModeVwire : Option otherMode := none
  TapMode : Option emptyMode := none
  HaMode : Option emptyMode := none
  DecryptMirrorMode : Option emptyMode := none
  AggregateGroupMode : Option emptyMode := none
  LinkSpeed : String := ""
  LinkDuplex : String := ""
  LinkState : String := ""
  Comment : String := ""
deriving DecidableEq

/-- container_v1: the v1 read container holding one entry. -/
structure container_v1 where
  Answer : entry_v1
deriving DecidableEq

/-- l3Mode_v2: the layer3 mode sub-structure of the v2 wire schema,
carrying the per-protocol MSS adjustment values. -/
structure l3Mode_v2 where
  Ipv6 : ipv6 := {}
  ManagementProfile : String := ""
  Mtu : Int := 0
  NetflowProfile : String := ""
  AdjustTcpMss : String := ""
  Ipv4MssAdjust : Int := 0
  Ipv6MssAdjust : Int := 0
  StaticIps : Option (List String) := none
  Dhcp : Option dhcpSettings := none
  Arp : Option RawXml := none
  Subinterface : Option RawXml := none
deriving DecidableEq

/-- entry_v2: the v2 wire schema for one ethernet interface entry. -/
structure entry_v2 where
  Name : String := ""
  ModeL3 : Option l3Mode_v2 := none
  ModeL2 : Option otherMode := none
  ModeVwire : Option otherMode := none
  TapMode : Option emptyMode := none
  HaMode : Option emptyMode := none
  DecryptMirrorMode : Option emptyMode := none
  AggregateGroupMode : Option emptyMode := none
  LinkSpeed : String := ""
  LinkDuplex : String := ""
  LinkState : String := ""
  Comment : String := ""
deriving DecidableEq

/-- container_v2: the v2 read container holding one entry. -/
structure container_v2 where
  Answer : entry_v2
deriving DecidableEq

/-- Collect one optional opaque fragment under its key, cleaning its
text (the conditional raw map insertions of the Normalize bodies). -/
def rawEntryOf (k : String) : Option RawXml → List (String × String)
  | some x => [(k, CleanRawXml x.Text)]
  | none => []

/-- container_v1.Normalize (eth.go lines 265-324): maps a v1 wire entry
to the normalized Entry, switching on the first non-null mode
sub-structure in the order layer3, layer2, virtual-wire, tap, ha,
decrypt-mirror, aggregate-group; opaque fragments are cleaned and
collected, and an empty raw map becomes nil. -/
def container_v1.Normalize (o : container_v1) : Entry :=
  let a := o.Answer
  let base : Entry :=
    { Name := a.Name
      LinkSpeed := a.LinkSpeed
      LinkDuplex := a.LinkDuplex
      LinkState := a.LinkState
      Comment := a.Comment }
  match a.ModeL3 with
  | some m =>
    let rawList : List (String × String) :=
      rawEntryOf "arp" m.Arp ++ rawEntryOf "l3subinterface" m.Subinterface ++
        rawEntryOf "ipv6" m.Ipv6.Address
    { base with
      Mode := "layer3"
      Ipv6Enabled := AsBool m.Ipv6.Enabled
      ManagementProfile := m.ManagementProfile
      Mtu := m.Mtu
      NetflowProfile := m.NetflowProfile
      AdjustTcpMss := AsBool m.AdjustTcpMss
      StaticIps := EntToStr m.StaticIps
      EnableDhcp := (match m.Dhcp with
        | some d => AsBool d.Enable
        | none => false)
      CreateDhcpDefaultRoute := (match m.Dhcp with
        | some d => AsBool d.CreateDefaultRoute
        | none => false)
      DhcpDefaultRouteMetric := (match m.Dhcp with
        | some d => d.Metric
        | none => 0)
      raw := if rawList.length = 0 then none else some rawList }
  | none =>
  match a.ModeL2 with
  | some m =>
    let rawList : List (String × String) :=
      rawEntryOf "l2subinterface" m.Subinterface
    { base with
      Mode := "layer2"
      LldpEnabled := AsBool m.LldpEnabled
      LldpProfile := m.LldpProfile
      NetflowProfile := m.NetflowProfile
      raw := if rawList.length = 0 then none else some rawList }
  | none =>
  match a.ModeVwire with
  | some m =>
    { base with
      Mode := "virtual-wire"
      LldpEnabled := AsBool m.LldpEnabled
      LldpProfile := m.LldpProfile
      NetflowProfile := m.NetflowProfile }
  | none =>
  match a.TapMode with
  | some _ => { base with Mode := "tap" }
  | none =>
  match a.HaMode with
  | some _ => { base with Mode := "ha" }
  | none =>
  match a.DecryptMirrorMode with
  | some _ => { base with Mode := "decrypt-mirror" }
  | none =>
  match a.AggregateGroupMode with
  | some _ => { base with Mode := "aggregate-group" }
  | none => base

/-- container_v2.Normalize (eth.go lines 378-439): as the v1 mapping,
additionally recovering the per-protocol MSS adjustment values. -/
def container_v2.Normalize (o : container_v2) : Entry :=
  let a := o.Answer
  let base : Entry :=
    { Name := a.Name
      LinkSpeed := a.LinkSpeed
      LinkDuplex := a.LinkDuplex
      LinkState := a.LinkState
      Comment := a.Comment }
  match a.ModeL3 with
  | some m =>
    let rawList : List (String × String) :=
      rawEntryOf "arp" m.Arp ++ rawEntryOf "l3subinterface" m.Subinterface ++
        rawEntryOf "ipv6" m.Ipv6.Address
    { base with
      Mode := "layer3"
      Ipv6Enabled := AsBool m.Ipv6.Enabled
      ManagementProfile := m.ManagementProfile
      Mtu := m.Mtu
      NetflowProfile := m.NetflowProfile
      AdjustTcpMss := AsBool m.AdjustTcpMss
      Ipv4MssAdjust := m.Ipv4MssAdjust
      Ipv6MssAdjust := m.Ipv6MssAdjust
      StaticIps := EntToStr m.StaticIps
      EnableDhcp := (match m.Dhcp with
        | some d => AsBool d.Enable
        | none => false)
      CreateDhcpDefaultRoute := (match m.Dhcp with
        | some d => AsBool d.CreateDefaultRoute
        | none => false)
      DhcpDefaultRouteMetric := (match m.Dhcp with
        | some d => d.Metric
        | none => 0)
      raw := if rawList.length = 0 then none else some rawList }
  | none =>
  match a.ModeL2 with
  | some m =>
    let rawList : List (String × String) :=
      rawEntryOf "l2subinterface" m.Subinterface
    { base with
      Mode := "layer2"
      LldpEnabled := AsBool m.LldpEnabled
      LldpProfile := m.LldpProfile
      NetflowProfile := m.NetflowProfile
      raw := if rawList.length = 0 then none else some rawList }
  | none =>
  match a.ModeVwire with
  | some m =>
    { base with
      Mode := "virtual-wire"
      LldpEnabled := AsBool m.LldpEnabled
      LldpProfile := m.LldpProfile
      NetflowProfile := m.NetflowProfile }
  | none =>
  match a.TapMode with
  | some _ => { base with Mode := "tap" }
  | none =>
  match a.HaMode with
  | some _ => { base with Mode := "ha" }
  | none =>
  match a.DecryptMirrorMode with
  | some _ => { base with Mode := "decrypt-mirror" }
  | none =>
  match a.AggregateGroupMode with
  | some _ => { base with Mode := "aggregate-group" }
  | none => base

/-- Lookup of a key in the (possibly nil) raw fragment map. -/
def rawLookup (r : Option (List (String × String))) (k : String) : Option String :=
  match r with
  | none => none
  | some m => (m.find? (fun p => p.1 == k)).map Prod.snd

/-- specify_v1 (eth.go lines 471-535): maps a normalized Entry to a v1
wire entry, switching on the mode tag; an unrecognized mode emits no
mode block. -/
def specify_v1 (e : Entry) : entry_v1 :=
  let base : entry_v1 :=
    { Name := e.Name
      LinkSpeed := e.LinkSpeed
      LinkDuplex := e.LinkDuplex
      LinkState := e.LinkState
      Comment := e.Comment }
  if e.Mode = "layer3" then
    { base with ModeL3 := some {
        StaticIps := StrToEnt e.StaticIps
        ManagementProfile := e.ManagementProfile
        Mtu := e.Mtu
        NetflowProfile := e.NetflowProfile
        AdjustTcpMss := YesNo e.AdjustTcpMss
        Ipv6 :=
          { Enabled := YesNo e.Ipv6Enabled
            Address := (rawLookup e.raw "ipv6").map RawXml.mk }
        Dhcp :=
          if e.EnableDhcp || e.CreateDhcpDefaultRoute || decide (e.DhcpDefaultRouteMetric ≠ 0) then
            some
              { Enable := YesNo e.EnableDhcp
                CreateDefaultRoute := YesNo e.CreateDhcpDefaultRoute
                Metric := e.DhcpDefaultRouteMetric }
          else none
        Arp := (rawLookup e.raw "arp").map RawXml.mk
        Subinterface := (rawLookup e.raw "l3subinterface").map RawXml.mk } }
  else if e.Mode = "layer2" then
    { base with ModeL2 := some {
        LldpEnabled := YesNo e.LldpEnabled
        LldpProfile := e.LldpProfile
        NetflowProfile := e.NetflowProfile
        Subinterface := (rawLookup e.raw "l2subinterface").map RawXml.mk } }
  else if e.Mode = "virtual-wire" then
    { base with ModeVwire := some {
        LldpEnabled := YesNo e.LldpEnabled
        LldpProfile := e.LldpProfile
        NetflowProfile := e.NetflowProfile } }
  else if e.Mode = "tap" then { base with TapMode := some ⟨()⟩ }
  else if e.Mode = "ha" then { base with HaMode := some ⟨()⟩ }
  else if e.Mode = "decrypt-mirror" then { base with DecryptMirrorMode := some ⟨()⟩ }
  else if e.Mode = "aggregate-group" then { base with AggregateGroupMode := some ⟨()⟩ }
  else base

/-- specify_v2 (eth.go lines 537-603): maps a normalized Entry to a v2
wire entry, additionally carrying the per-protocol MSS adjustment
values. -/
def specify_v2 (e : Entry) : entry_v2 :=
  let base : entry_v2 :=
    { Name := e.Name
      LinkSpeed := e.LinkSpeed
      LinkDuplex := e.LinkDuplex
      LinkState := e.LinkState
      Comment := e.Comment }
  if e.Mode = "layer3" then
    { base with ModeL3 := some {
        StaticIps := StrToEnt e.StaticIps
        ManagementProfile := e.ManagementProfile
        Mtu := e.Mtu
        NetflowProfile := e.NetflowProfile
        AdjustTcpMss := YesNo e.AdjustTcpMss
        Ipv4MssAdjust := e.Ipv4MssAdjust
        Ipv6MssAdjust := e.Ipv6MssAdjust
        Ipv6 :=
          { Enabled := YesNo e.Ipv6Enabled
            Address := (rawLookup e.raw "ipv6").map RawXml.mk }
        Dhcp :=
          if e.EnableDhcp || e.CreateDhcpDefaultRoute || decide (e.DhcpDefaultRouteMetric ≠ 0) then
            some
              { Enable := YesNo e.EnableDhcp
                CreateDefaultRoute := YesNo e.CreateDhcpDefaultRoute
                Metric := e.DhcpDefaultRouteMetric }
          else none
        Arp := (rawLookup e.raw "arp").map RawXml.mk
        Subinterface := (rawLookup e.raw "l3subinterface").map RawXml.mk } }
  else if e.Mode = "layer2" then
    { base with ModeL2 := some {
        LldpEnabled := YesNo e.LldpEnabled
        LldpProfile := e.LldpProfile
        NetflowProfile := e.NetflowProfile
        Subinterface := (rawLookup e.raw "l2subinterface").map RawXml.mk } }
  else if e.Mode = "virtual-wire" then
    { base with ModeVwire := some {
        LldpEnabled := YesNo e.LldpEnabled
        LldpProfile := e.LldpProfile
        NetflowProfile := e.NetflowProfile } }
  else if e.Mode = "tap" then { base with TapMode := some ⟨()⟩ }
  else if e.Mode = "ha" then { base with HaMode := some ⟨()⟩ }
  else if e.Mode = "decrypt-mirror" then { base with DecryptMirrorMode := some ⟨()⟩ }
  else if e.Mode = "aggregate-group" then { base with AggregateGroupMode := some ⟨()⟩ }
  else base

/-- The schema identities the versioning function can select. -/
inductive SchemaVer where
  | v1
  | v2
deriving DecidableEq

/-- The serialized form of one entry, tagged by the schema that
produced it (the Go code passes these as interface values). -/
inductive WireOut where
  | w1 (x : entry_v1)
  | w2 (x : entry_v2)
deriving DecidableEq

/-- The serialize function of the v1 schema, as handed out by
versioning. -/
def specifyFn_v1 (e : Entry) : WireOut := WireOut.w1 (specify_v1 e)

/-- The serialize function of the v2 schema, as handed out by
versioning. -/
def specifyFn_v2 (e : Entry) : WireOut := WireOut.w2 (specify_v2 e)

/-- The 7.1.0 schema threshold. -/
def v710 : Number := { Major := 7, Minor := 1, Patch := 0, Suffix := "" }

/-- Eth.versioning (eth.go lines 222-230): the v2 schema and
specify_v2 when the device version is at least 7.1.0, otherwise the v1
schema and specify_v1. -/
def versioning (v : Number) : SchemaVer × (Entry → WireOut) :=
  if v.Gte v710 then (SchemaVer.v2, specifyFn_v2)
  else (SchemaVer.v1, specifyFn_v1)

/-- Eth.xpath (eth.go lines 243-253): the address path of the ethernet
interface container, ending in an entry selector over the given
names. -/
def xpath (vals : List String) : List String :=
  [ "config"
  , "devices"
  , AsEntryXpath ["localhost.localdomain"]
  , "network"
  , "interface"
  , "ethernet"
  , AsEntryXpath vals ]

/-- Modelled from the spec: util.BulkElement wraps serialized entries
into one bulk wire body; a single entry is passed bare, several are
wrapped in the named container element. -/
inductive XBody where
  | single (w : WireOut)
  | bulk (name : String) (ws : List WireOut)
deriving DecidableEq

/-- Modelled from the spec: BulkElement.Config, choosing the bare or
wrapped body shape. -/
def bulkConfig (data : List WireOut) : XBody :=
  match data with
  | [w] => XBody.single w
  | ws => XBody.bulk "ethernet" ws

/-- One call observed at the transport collaborator boundary. -/
inductive XCall where
  | setCall (path : List String) (body : XBody)
  | editCall (path : List String) (body : WireOut)
  | deleteCall (path : List String)
  | importCall (vsys : String) (names : List String)
  | unimportCall (vsys : String) (names : List String)
deriving DecidableEq

/-- A stub transport: the negotiated device version and the error each
primitive is scripted to return (none meaning success). -/
structure Stub where
  ver : Number := { Major := 8, Minor := 0, Patch := 0, Suffix := "" }
  setErr : Option String := none
  editErr : Option String := none
  deleteErr : Option String := none
  importErr : Option String := none
  unimportErr : Option String := none
deriving DecidableEq

/-- Eth.Set (eth.go lines 108-149), modelled against the stub
transport: returns the error outcome and the ordered list of transport
calls issued. -/
def EthSet (st : Stub) (vsys : String) (e : List Entry) : Option String × List XCall :=
  if e.length = 0 then (none, [])
  else
    let fn := (versioning st.ver).2
    let n1 := e.map Entry.Name
    let n2 := (e.filter (fun x => !(x.Mode == "ha") && !(x.Mode == "aggregate-group"))).map Entry.Name
    let d := bulkConfig (e.map fn)
    let path0 := xpath n1
    let path := if e.length = 1 then path0.dropLast else path0.dropLast.dropLast
    match st.setErr with
    | some err => (some err, [XCall.setCall path d])
    | none =>
      if vsys = "" ∨ n2.length = 0 then (none, [XCall.setCall path d])
      else
        match st.importErr with
        | some err => (some err, [XCall.setCall path d, XCall.importCall vsys n2])
        | none => (none, [XCall.setCall path d, XCall.importCall vsys n2])

/-- Eth.Edit (eth.go lines 157-180), modelled against the stub
transport. -/
def EthEdit (st : Stub) (vsys : String) (e : Entry) : Option String × List XCall :=
  let fn := (versioning st.ver).2
  let path := xpath [e.Name]
  match st.editErr with
  | some err => (some err, [XCall.editCall path (fn e)])
  | none =>
    if vsys = "" ∨ e.Mode = "ha" ∨ e.Mode = "aggregate-group" then
      (none, [XCall.editCall path (fn e)])
    else
      match st.importErr with
      | some err => (some err, [XCall.editCall path (fn e), XCall.importCall vsys [e.Name]])
      | none => (none, [XCall.editCall path (fn e), XCall.importCall vsys [e.Name]])

/-- An identifier passed to Delete: a bare name, a full Entry, or a
value of any other type (the Go interface argument), carrying its
printed form. -/
inductive EthId where
  | name (s : String)
  | entry (e : Entry)
  | other (printed : String)
deriving DecidableEq

/-- The name-resolution loop of Eth.Delete (eth.go lines 195-205): a
bare string stands for itself, an Entry contributes its Name, and any
other value aborts with an error naming the bad input. -/
def resolveNames : List EthId → Except String (List String)
  | [] => Except.ok []
  | x :: xs =>
    match x with
    | EthId.name s => (resolveNames xs).map (fun ns => s :: ns)
    | EthId.entry e => (resolveNames xs).map (fun ns => e.Name :: ns)
    | EthId.other d => Except.error ("Unknown type sent to delete: " ++ d)

/-- Eth.Delete (eth.go lines 188-218), modelled against the stub
transport: resolves names, unimports unconditionally, then deletes. -/
def EthDelete (st : Stub) (vsys : String) (e : List EthId) : Option String × List XCall :=
  if e.length = 0 then (none, [])
  else
    match resolveNames e with
    | Except.error msg => (some msg, [])
    | Except.ok names =>
      match st.unimportErr with
      | some err => (some err, [XCall.unimportCall vsys names])
      | none =>
        match st.deleteErr with
        | some err =>
          (some err, [XCall.unimportCall vsys names, XCall.deleteCall (xpath names)])
        | none =>
          (none, [XCall.unimportCall vsys names, XCall.deleteCall (xpath names)])

/-- The paths of the set primitive calls in a trace. -/
def setPathsOf (tr : List XCall) : List (List String) :=
  tr.filterMap (fun c => match c with
    | XCall.setCall p _ => some p
    | _ => none)

/-- The paths of the edit primitive calls in a trace. -/
def editPathsOf (tr : List XCall) : List (List String) :=
  tr.filterMap (fun c => match c with
    | XCall.editCall p _ => some p
    | _ => none)

/-- The import side-effect calls in a trace. -/
def importCallsOf (tr : List XCall) : List (String × List String) :=
  tr.filterMap (fun c => match c with
    | XCall.importCall v ns => some (v, ns)
    | _ => none)

/-- Whether a transport call is the unimport side-effect call. -/
def isUnimport (c : XCall) : Bool :=
  match c with
  | XCall.unimportCall _ _ => true
  | _ => false

/-- A fragment value is stable under cleaning (holds of every value a
Normalize call produces). -/
def cleanOpt : Option String → Prop
  | none => True
  | some t => CleanRawXml t = t

/-- One optional key of the raw fragment map. -/
def optEntry (k : String) : Option String → List (String × String)
  | none => []
  | some t => [(k, t)]

/-- Build the raw map value: a nil map for no fragments, otherwise the
non-empty association list. -/
def mkRaw (l : List (String × String)) : Option (List (String × String)) :=
  if l = [] then none else some l

/-- The canonical raw map of a layer3 entry: optional arp,
l3subinterface and ipv6 fragments. -/
def mkL3Raw (a b c : Option String) : Option (List (String × String)) :=
  mkRaw (optEntry "arp" a ++ optEntry "l3subinterface" b ++ optEntry "ipv6" c)

/-- The canonical raw map of a layer2 entry: an optional
l2subinterface fragment. -/
def mkL2Raw (u : Option String) : Option (List (String × String)) :=
  mkRaw (optEntry "l2subinterface" u)

/-- All layer3-only fields are zero valued. -/
def zeroL3 (e : Entry) : Prop :=
  e.StaticIps = [] ∧ e.EnableDhcp = false ∧ e.CreateDhcpDefaultRoute = false ∧
  e.DhcpDefaultRouteMetric = 0 ∧ e.Ipv6Enabled = false ∧ e.ManagementProfile = "" ∧
  e.Mtu = 0 ∧ e.AdjustTcpMss = false ∧ e.Ipv4MssAdjust = 0 ∧ e.Ipv6MssAdjust = 0

/-- The LLDP fields (layer2 and virtual-wire only) are zero valued. -/
def zeroLldp (e : Entry) : Prop :=
  e.LldpEnabled = false ∧ e.LldpProfile = ""

/-- A normalized entry as the round-trip law quantifies over it: the
mode is one of the seven variants, fields belonging to other modes are
zero valued, and the opaque fragment map holds exactly fragments of
its mode, each stable under cleaning.  The AggregateGroup field
belongs to no wire schema here and is therefore zero valued. -/
def NormalizedEntry (e : Entry) : Prop :=
  e.AggregateGroup = "" ∧
  (if e.Mode = "layer3" then
    zeroLldp e ∧ ∃ a b c, e.raw = mkL3Raw a b c ∧ cleanOpt a ∧ cleanOpt b ∧ cleanOpt c
  else if e.Mode = "layer2" then
    zeroL3 e ∧ ∃ u, e.raw = mkL2Raw u ∧ cleanOpt u
  else if e.Mode = "virtual-wire" then
    zeroL3 e ∧ e.raw = none
  else if e.Mode = "tap" ∨ e.Mode = "ha" ∨ e.Mode = "decrypt-mirror" ∨ e.Mode = "aggregate-group" then
    zeroL3 e ∧ zeroLldp e ∧ e.NetflowProfile = "" ∧ e.raw = none
  else False)

/-- Serialize an entry with the selected schema and read it back with
the same schema's Normalize. -/
def roundtripAt (s : SchemaVer) (e : Entry) : Entry :=
  match s with
  | SchemaVer.v1 => container_v1.Normalize { Answer := specify_v1 e }
  | SchemaVer.v2 => container_v2.Normalize { Answer := specify_v2 e }

/-- The mode the claim predicts for a v1 wire entry: first non-null
sub-structure in the order layer3, layer2, virtual-wire, tap, ha,
decrypt-mirror, aggregate-group, else the empty string. -/
def resolveMode_v1 (a : entry_v1) : String :=
  if a.ModeL3.isSome then "layer3"
  else if a.ModeL2.isSome then "layer2"
  else if a.ModeVwire.isSome then "virtual-wire"
  else if a.TapMode.isSome then "tap"
  else if a.HaMode.isSome then "ha"
  else if a.DecryptMirrorMode.isSome then "decrypt-mirror"
  else if a.AggregateGroupMode.isSome then "aggregate-group"
  else ""

/-- The mode the claim predicts for a v2 wire entry, same order. -/
def resolveMode_v2 (a : entry_v2) : String :=
  if a.ModeL3.isSome then "layer3"
  else if a.ModeL2.isSome then "layer2"
  else if a.ModeVwire.isSome then "virtual-wire"
  else if a.TapMode.isSome then "tap"
  else if a.HaMode.isSome then "ha"
  else if a.DecryptMirrorMode.isSome then "decrypt-mirror"
  else if a.AggregateGroupMode.isSome then "aggregate-group"
  else ""

/-- At most one mode's fields are populated in an entry: under the
layer3 tag the LLDP fields are zero, under any other tag the
layer3-only fields are zero, and under the field-less tags (and the
empty tag) every mode field and the fragment map are zero. -/
def modesExclusive (e : Entry) : Prop :=
  (e.Mode = "layer3" → zeroLldp e) ∧
  (e.Mode ≠ "layer3" → zeroL3 e) ∧
  ((e.Mode = "tap" ∨ e.Mode = "ha" ∨ e.Mode = "decrypt-mirror" ∨
      e.Mode = "aggregate-group" ∨ e.Mode = "") →
    zeroLldp e ∧ e.NetflowProfile = "" ∧ e.raw = none)

/-- A stub transport with every primitive scripted to succeed. -/
def stubOk : Stub := {}

/-- A sample layer3 entry. -/
def entL3 : Entry := { Name := "ethernet1/2", Mode := "layer3" }

/-- A sample ha-mode entry. -/
def entHa : Entry := { Name := "ethernet1/3", Mode := "ha" }

/-- A layer3 entry with a nonzero per-protocol MSS adjustment, the
round-trip counterexample under the v1 schema. -/
def entMss : Entry := { Name := "ethernet1/4", Mode := "layer3", Ipv4MssAdjust := 24 }

/-- Copy counterexample target: only a name. -/
def entCopyTarget : Entry := { Name := "ethernet1/5" }

/-- Copy counterexample source: carries a raw fragment map. -/
def entCopySource : Entry :=
  { Name := "ethernet1/6", Mode := "layer3", raw := some [("arp", "fragment")] }

/-- A fully populated layer3 entry with all three opaque fragments. -/
def entFull : Entry :=
  { Name := "ethernet1/9", Mode := "layer3", StaticIps := ["10.0.0.1/24"],
    EnableDhcp := true, CreateDhcpDefaultRoute := true, DhcpDefaultRouteMetric := 10,
    Ipv6Enabled := true, ManagementProfile := "mp", Mtu := 1500, AdjustTcpMss := true,
    NetflowProfile := "nf", Comment := "c", LinkSpeed := "auto", LinkDuplex := "full",
    LinkState := "up", Ipv4MssAdjust := 24, Ipv6MssAdjust := 44,
    raw := some [("arp", "x"), ("l3subinterface", "y"), ("ipv6", "z")] }

/-- A stub transport whose unimport primitive is scripted to fail. -/
def stubUnimportFail : Stub := { unimportErr := some "unimport failed" }

/-- An identifier list whose second element is of an unsupported
type. -/
def idsBad : List EthId := [EthId.name "ethernet1/8", EthId.other "5"]

/-- The import-eligible names of a batch: the entities whose mode is
neither ha nor aggregate-group, in input order. -/
def eligibleNames (es : List Entry) : List String :=
  (es.filter (fun x => !(x.Mode == "ha") && !(x.Mode == "aggregate-group"))).map Entry.Name

lemma asBool_yesNo (b : Bool) : AsBool (YesNo b) = b := by
  cases b <;> rfl

lemma entToStr_strToEnt (xs : List String) : EntToStr (StrToEnt xs) = xs := by
  cases xs <;> simp [StrToEnt, EntToStr]

/-- The set primitive of every non-empty Set call receives the name
path with one trailing segment dropped for a single entity and two for
several. -/
lemma setPathsOf_EthSet (st : Stub) (vsys : String) (es : List Entry) (h : es ≠ []) :
    setPathsOf (EthSet st vsys es).2 =
      [if es.length = 1 then (xpath (es.map Entry.Name)).dropLast
       else ((xpath (es.map Entry.Name)).dropLast).dropLast] := by
  have hlen : ¬ es.length = 0 := by simpa using h
  unfold EthSet
  rw [if_neg hlen]
  rcases hst : st.setErr with _ | m
  · simp only []
    split
    · simp [setPathsOf]
    · split
      · simp [setPathsOf]
      · simp [setPathsOf]
  · simp [setPathsOf]

/-- The edit primitive always receives the full entry path. -/
lemma editPathsOf_EthEdit (st : Stub) (vsys : String) (e : Entry) :
    editPathsOf (EthEdit st vsys e).2 = [xpath [e.Name]] := by
  unfold EthEdit
  rcases hst : st.editErr with _ | m
  · simp only []
    split
    · simp [editPathsOf]
    · split
      · simp [editPathsOf]
      · simp [editPathsOf]
  · simp [editPathsOf]

/-- C9 (confirmed).  Empty-batch no-ops: Set called with zero entities
and Delete called with zero identifiers each return no error and issue
zero transport calls, for every scope argument. -/
theorem eth_c9_empty_batch_noop (st : Stub) (vsys : String) :
    EthSet st vsys [] = (none, []) ∧ EthDelete st vsys [] = (none, []) :=
  ⟨rfl, rfl⟩

/-- C7 (counterexample).  Copy does not carry the unexported raw
fragment map over: after copying from a source whose raw map is
populated into a target whose raw map is nil, the target's raw map
still differs from the source's, even though the exported fields (for
example Mode) were copied. -/
theorem eth_c7_counterexample :
    (Entry.Copy entCopyTarget entCopySource).raw ≠ entCopySource.raw ∧
    (Entry.Copy entCopyTarget entCopySource).Mode = entCopySource.Mode := by
  decide

/-- C7 (amended).  After o.Copy(s), every exported field of the result
other than Name equals the corresponding field of s, while Name and
the unexported raw fragment map keep o's values. -/
theorem eth_c7_copy_frame (o s : Entry) :
    (Entry.Copy o s).Name = o.Name ∧ (Entry.Copy o s).raw = o.raw ∧
    (Entry.Copy o s).Mode = s.Mode ∧ (Entry.Copy o s).StaticIps = s.StaticIps ∧
    (Entry.Copy o s).EnableDhcp = s.EnableDhcp ∧
    (Entry.Copy o s).CreateDhcpDefaultRoute = s.CreateDhcpDefaultRoute ∧
    (Entry.Copy o s).DhcpDefaultRouteMetric = s.DhcpDefaultRouteMetric ∧
    (Entry.Copy o s).Ipv6Enabled = s.Ipv6Enabled ∧
    (Entry.Copy o s).ManagementProfile = s.ManagementProfile ∧
    (Entry.Copy o s).Mtu = s.Mtu ∧ (Entry.Copy o s).AdjustTcpMss = s.AdjustTcpMss ∧
    (Entry.Copy o s).NetflowProfile = s.NetflowProfile ∧
    (Entry.Copy o s).LldpEnabled = s.LldpEnabled ∧
    (Entry.Copy o s).LldpProfile = s.LldpProfile ∧
    (Entry.Copy o s).LinkSpeed = s.LinkSpeed ∧
    (Entry.Copy o s).LinkDuplex = s.LinkDuplex ∧
    (Entry.Copy o s).LinkState = s.LinkState ∧
    (Entry.Copy o s).AggregateGroup = s.AggregateGroup ∧
    (Entry.Copy o s).Comment = s.Comment ∧
    (Entry.Copy o s).Ipv4MssAdjust = s.Ipv4MssAdjust ∧
    (Entry.Copy o s).Ipv6MssAdjust = s.Ipv6MssAdjust :=
  ⟨rfl, rfl, rfl, rfl, rfl, rfl, rfl, rfl, rfl, rfl, rfl, rfl, rfl, rfl, rfl, rfl,
   rfl, rfl, rfl, rfl, rfl⟩

/-- C2 (counterexample).  With a single entity, the path handed to the
set primitive is not the path Edit hands to the edit primitive: Set
drops the trailing entry selector. -/
theorem eth_c2_counterexample :
    setPathsOf (EthSet stubOk "" [entL3]).2 ≠ editPathsOf (EthEdit stubOk "" entL3).2 := by
  decide

/-- C2 (amended).  Set with exactly one entity passes to the set
primitive the Edit entry path with its trailing entry selector
dropped (one segment shorter than the path Edit passes to the edit
primitive); Set with more than one entity drops the two trailing
segments of the name path. -/
theorem eth_c2_set_path_rule (st : Stub) (vsys : String) (e : Entry) (es : List Entry)
    (h2 : 2 ≤ es.length) :
    setPathsOf (EthSet st vsys [e]).2 = [(xpath [e.Name]).dropLast] ∧
    editPathsOf (EthEdit st vsys e).2 = [xpath [e.Name]] ∧
    setPathsOf (EthSet st vsys es).2 = [((xpath (es.map Entry.Name)).dropLast).dropLast] := by
  refine ⟨?_, editPathsOf_EthEdit st vsys e, ?_⟩
  · rw [setPathsOf_EthSet st vsys [e] (by simp)]
    simp
  · have hne : es ≠ [] := by
      intro hh
      rw [hh] at h2
      simp at h2
    rw [setPathsOf_EthSet st vsys es hne]
    have : ¬ es.length = 1 := by omega
    simp [this]

/-- Witness for the amended C2 statement at concrete entities. -/
theorem eth_c2_set_path_rule_witness :
    2 ≤ ([entL3, entHa] : List Entry).length ∧
    (setPathsOf (EthSet stubOk "vsys1" [entL3]).2 = [(xpath [entL3.Name]).dropLast] ∧
     editPathsOf (EthEdit stubOk "vsys1" entL3).2 = [xpath [entL3.Name]] ∧
     setPathsOf (EthSet stubOk "vsys1" [entL3, entHa]).2 =
       [((xpath (([entL3, entHa] : List Entry).map Entry.Name)).dropLast).dropLast]) :=
  ⟨by decide, eth_c2_set_path_rule stubOk "vsys1" entL3 [entL3, entHa] (by decide)⟩

/-- C3 (counterexample).  Delete with the empty scope still issues the
unimport side-effect call: the claim that no unimport call is made
when the scope is empty fails at this input. -/
theorem eth_c3_counterexample :
    ((EthDelete stubOk "" [EthId.name "ethernet1/1"]).2.any isUnimport) = true := by
  decide

/-- C3 (amended).  For every non-empty identifier list that resolves,
Delete issues the unimport side-effect call unconditionally — for
every scope argument, the empty one included — covering all resolved
names with no mode-based exclusion, as the first transport call. -/
theorem eth_c3_unimport_unconditional (st : Stub) (vsys : String) (ids : List EthId)
    (names : List String) (hne : ids ≠ []) (hres : resolveNames ids = Except.ok names) :
    ∃ rest, (EthDelete st vsys ids).2 = XCall.unimportCall vsys names :: rest := by
  have hlen : ¬ ids.length = 0 := by simpa using hne
  unfold EthDelete
  rw [if_neg hlen, hres]
  rcases hu : st.unimportErr with _ | m
  · rcases hd : st.deleteErr with _ | m2 <;> simp [hu, hd]
  · simp [hu]

/-- Witness for the amended C3 statement: empty scope, one name. -/
theorem eth_c3_unimport_unconditional_witness :
    ([EthId.name "ethernet1/1"] ≠ ([] : List EthId)) ∧
    resolveNames [EthId.name "ethernet1/1"] = Except.ok ["ethernet1/1"] ∧
    ∃ rest, (EthDelete stubOk "" [EthId.name "ethernet1/1"]).2 =
      XCall.unimportCall "" ["ethernet1/1"] :: rest :=
  ⟨by decide, rfl,
   eth_c3_unimport_unconditional stubOk "" [EthId.name "ethernet1/1"] ["ethernet1/1"]
     (by decide) rfl⟩

/-- C6 (confirmed).  Delete invokes unimport before the delete
primitive; if the unimport call errors, Delete returns that error and
the delete primitive is never invoked. -/
theorem eth_c6_delete_ordering (st : Stub) (vsys : String) (ids : List EthId)
    (names : List String) (hne : ids ≠ []) (hres : resolveNames ids = Except.ok names) :
    (∀ m, st.unimportErr = some m →
      EthDelete st vsys ids = (some m, [XCall.unimportCall vsys names])) ∧
    (st.unimportErr = none →
      (EthDelete st vsys ids).2 =
        [XCall.unimportCall vsys names, XCall.deleteCall (xpath names)]) := by
  have hlen : ¬ ids.length = 0 := by simpa using hne
  constructor
  · intro m hm
    unfold EthDelete
    rw [if_neg hlen, hres, hm]
  · intro hu
    unfold EthDelete
    rw [if_neg hlen, hres, hu]
    rcases hd : st.deleteErr with _ | m2 <;> simp [hd]

/-- Witness for C6 at a failing unimport stub. -/
theorem eth_c6_delete_ordering_witness :
    ([EthId.name "ethernet1/7"] ≠ ([] : List EthId)) ∧
    resolveNames [EthId.name "ethernet1/7"] = Except.ok ["ethernet1/7"] ∧
    ((∀ m, stubUnimportFail.unimportErr = some m →
      EthDelete stubUnimportFail "vsys2" [EthId.name "ethernet1/7"] =
        (some m, [XCall.unimportCall "vsys2" ["ethernet1/7"]])) ∧
     (stubUnimportFail.unimportErr = none →
      (EthDelete stubUnimportFail "vsys2" [EthId.name "ethernet1/7"]).2 =
        [XCall.unimportCall "vsys2" ["ethernet1/7"],
         XCall.deleteCall (xpath ["ethernet1/7"])])) :=
  ⟨by decide, rfl,
   eth_c6_delete_ordering stubUnimportFail "vsys2" [EthId.name "ethernet1/7"] ["ethernet1/7"]
     (by decide) rfl⟩

lemma resolveNames_error_of_mem (ids : List EthId) (d : String)
    (hd : EthId.other d ∈ ids) :
    ∃ d2, EthId.other d2 ∈ ids ∧
      resolveNames ids = Except.error ("Unknown type sent to delete: " ++ d2) := by
  induction ids with
  | nil => cases hd
  | cons x xs ih =>
    cases x with
    | name s =>
      have hd2 : EthId.other d ∈ xs := by simpa using hd
      obtain ⟨d2, hmem, herr⟩ := ih hd2
      exact ⟨d2, List.mem_cons_of_mem _ hmem, by simp [resolveNames, herr, Except.map]⟩
    | entry e0 =>
      have hd2 : EthId.other d ∈ xs := by simpa using hd
      obtain ⟨d2, hmem, herr⟩ := ih hd2
      exact ⟨d2, List.mem_cons_of_mem _ hmem, by simp [resolveNames, herr, Except.map]⟩
    | other d0 =>
      exact ⟨d0, List.mem_cons_self _ _, rfl⟩

/-- C8 (confirmed).  If any identifier passed to Delete is neither a
bare name nor an Entry, Delete returns immediately with an error
naming the bad input and issues no transport call at all. -/
theorem eth_c8_delete_bad_identifier (st : Stub) (vsys : String) (ids : List EthId)
    (h : ∃ d, EthId.other d ∈ ids) :
    ∃ d, EthId.other d ∈ ids ∧
      EthDelete st vsys ids = (some ("Unknown type sent to delete: " ++ d), []) := by
  obtain ⟨d, hd⟩ := h
  obtain ⟨d2, hmem, herr⟩ := resolveNames_error_of_mem ids d hd
  have hlen : ¬ ids.length = 0 := by
    cases ids with
    | nil => cases hmem
    | cons x xs => simp
  refine ⟨d2, hmem, ?_⟩
  unfold EthDelete
  rw [if_neg hlen, herr]

/-- Witness for C8 at a list containing an unsupported identifier. -/
theorem eth_c8_delete_bad_identifier_witness :
    (∃ d, EthId.other d ∈ idsBad) ∧
    ∃ d, EthId.other d ∈ idsBad ∧
      EthDelete stubOk "vsys3" idsBad = (some ("Unknown type sent to delete: " ++ d), []) :=
  ⟨⟨"5", by decide⟩, eth_c8_delete_bad_identifier stubOk "vsys3" idsBad ⟨"5", by decide⟩⟩

/-- C4 (confirmed).  After a successful Set with a non-empty scope
the import call names exactly the entities whose mode is neither ha
nor aggregate-group, in input order; if every entity is in one of
those modes no import call is made and no error is raised.  Edit
likewise imports its single entity exactly when its mode is neither
of the two. -/
lemma EthSet_eq (st : Stub) (vsys : String) (es : List Entry) (h : ¬ es.length = 0) :
    EthSet st vsys es =
      (match st.setErr with
       | some err => (some err,
           [XCall.setCall
             (if es.length = 1 then (xpath (es.map Entry.Name)).dropLast
              else ((xpath (es.map Entry.Name)).dropLast).dropLast)
             (bulkConfig (es.map (versioning st.ver).2))])
       | none =>
         if vsys = "" ∨ (eligibleNames es).length = 0 then
           (none,
            [XCall.setCall
              (if es.length = 1 then (xpath (es.map Entry.Name)).dropLast
               else ((xpath (es.map Entry.Name)).dropLast).dropLast)
              (bulkConfig (es.map (versioning st.ver).2))])
         else
           match st.importErr with
           | some err => (some err,
               [XCall.setCall
                 (if es.length = 1 then (xpath (es.map Entry.Name)).dropLast
                  else ((xpath (es.map Entry.Name)).dropLast).dropLast)
                 (bulkConfig (es.map (versioning st.ver).2)),
                XCall.importCall vsys (eligibleNames es)])
           | none => (none,
               [XCall.setCall
                 (if es.length = 1 then (xpath (es.map Entry.Name)).dropLast
                  else ((xpath (es.map Entry.Name)).dropLast).dropLast)
                 (bulkConfig (es.map (versioning st.ver).2)),
                XCall.importCall vsys (eligibleNames es)])) := by
  unfold EthSet eligibleNames
  rw [if_neg h]

theorem eth_c4_import_exclusion (st : Stub) (vsys : String) (es : List Entry) (e : Entry)
    (hset : st.setErr = none) (hedit : st.editErr = none) (hv : vsys ≠ "") (hne : es ≠ []) :
    (importCallsOf (EthSet st vsys es).2 =
       (if eligibleNames es = [] then [] else [(vsys, eligibleNames es)]) ∧
     (eligibleNames es = [] → (EthSet st vsys es).1 = none)) ∧
    (importCallsOf (EthEdit st vsys e).2 =
       (if e.Mode = "ha" ∨ e.Mode = "aggregate-group" then [] else [(vsys, [e.Name])]) ∧
     ((e.Mode = "ha" ∨ e.Mode = "aggregate-group") → (EthEdit st vsys e).1 = none)) := by
  have hlen : ¬ es.length = 0 := by simpa using hne
  constructor
  · rw [EthSet_eq st vsys es hlen, hset]
    by_cases hz : eligibleNames es = []
    · rw [if_pos (Or.inr (by simp [hz]))]
      simp [hz, importCallsOf]
    · have hcond : ¬ (vsys = "" ∨ (eligibleNames es).length = 0) := by
        push_neg
        refine ⟨hv, ?_⟩
        simpa using hz
      rw [if_neg hcond]
      rcases himp : st.importErr with _ | m <;> simp [himp, hz, importCallsOf]
  · unfold EthEdit
    rw [hedit]
    by_cases hm : e.Mode = "ha" ∨ e.Mode = "aggregate-group"
    · simp [hm, importCallsOf]
    · rcases himp : st.importErr with _ | m <;>
        simp [hm, hv, himp, importCallsOf]

/-- Witness for C4: one ha entity and one layer3 entity; only the
layer3 entity's name is imported. -/
theorem eth_c4_import_exclusion_witness :
    stubOk.setErr = none ∧ stubOk.editErr = none ∧ ("vsys1" : String) ≠ "" ∧
    ([entHa, entL3] : List Entry) ≠ [] ∧
    ((importCallsOf (EthSet stubOk "vsys1" [entHa, entL3]).2 =
        (if eligibleNames [entHa, entL3] = [] then []
         else [("vsys1", eligibleNames [entHa, entL3])]) ∧
      (eligibleNames [entHa, entL3] = [] → (EthSet stubOk "vsys1" [entHa, entL3]).1 = none)) ∧
     (importCallsOf (EthEdit stubOk "vsys1" entL3).2 =
        (if entL3.Mode = "ha" ∨ entL3.Mode = "aggregate-group" then []
         else [("vsys1", [entL3.Name])]) ∧
      ((entL3.Mode = "ha" ∨ entL3.Mode = "aggregate-group") →
        (EthEdit stubOk "vsys1" entL3).1 = none))) :=
  ⟨rfl, rfl, by decide, by decide,
   eth_c4_import_exclusion stubOk "vsys1" [entHa, entL3] entL3 rfl rfl (by decide) (by decide)⟩

lemma gte_iff (x y : Number) :
    x.Gte y = true ↔
      (y.Major < x.Major ∨
        (x.Major = y.Major ∧
          (y.Minor < x.Minor ∨ (x.Minor = y.Minor ∧ y.Patch ≤ x.Patch)))) := by
  unfold Number.Gte
  by_cases h1 : x.Major = y.Major
  · by_cases h2 : x.Minor = y.Minor
    · simp [h1, h2]
    · simp [h1, h2]
  · simp [h1]

lemma gte_trans {a b t : Number} (h1 : Number.Gte b a = true) (h2 : Number.Gte a t = true) :
    Number.Gte b t = true := by
  rw [gte_iff] at h1 h2 ⊢
  omega

/-- C5 (confirmed).  Version selection is total and monotone: every
device version resolves to exactly one (schema, serialize-function)
pair, the v2 pair precisely when the version is at least 7.1.0;
versions on the same side of the threshold select the same schema; and
moving to a larger version never switches back from v2 to v1. -/
theorem eth_c5_version_selection (a b : Number) (hab : Number.Gte b a = true) :
    (versioning a = (SchemaVer.v2, specifyFn_v2) ∨
     versioning a = (SchemaVer.v1, specifyFn_v1)) ∧
    ((versioning a).1 = SchemaVer.v2 ↔ Number.Gte a v710 = true) ∧
    (Number.Gte a v710 = Number.Gte b v710 → (versioning a).1 = (versioning b).1) ∧
    ((versioning a).1 = SchemaVer.v2 → (versioning b).1 = SchemaVer.v2) := by
  have key : ∀ c : Number,
      (versioning c).1 = SchemaVer.v2 ↔ Number.Gte c v710 = true := by
    intro c
    unfold versioning
    by_cases hc : Number.Gte c v710 = true <;> simp [hc]
  refine ⟨?_, key a, ?_, ?_⟩
  · unfold versioning
    by_cases hc : Number.Gte a v710 = true <;> simp [hc]
  · intro hside
    by_cases hc : Number.Gte a v710 = true
    · have hb : Number.Gte b v710 = true := by rw [← hside]; exact hc
      rw [(key a).2 hc, (key b).2 hb]
    · have hb : ¬ Number.Gte b v710 = true := by rw [← hside]; exact hc
      unfold versioning
      simp [hc, hb]
  · intro hva
    have hc : Number.Gte a v710 = true := (key a).1 hva
    exact (key b).2 (gte_trans hab hc)

/-- Witness for C5 at versions 7.0.0 and 8.1.2. -/
theorem eth_c5_version_selection_witness :
    Number.Gte { Major := 8, Minor := 1, Patch := 2, Suffix := "" }
      { Major := 7, Minor := 0, Patch := 0, Suffix := "" } = true ∧
    ((versioning { Major := 7, Minor := 0, Patch := 0, Suffix := "" } =
        (SchemaVer.v2, specifyFn_v2) ∨
      versioning { Major := 7, Minor := 0, Patch := 0, Suffix := "" } =
        (SchemaVer.v1, specifyFn_v1)) ∧
     ((versioning { Major := 7, Minor := 0, Patch := 0, Suffix := "" }).1 = SchemaVer.v2 ↔
       Number.Gte { Major := 7, Minor := 0, Patch := 0, Suffix := "" } v710 = true) ∧
     (Number.Gte { Major := 7, Minor := 0, Patch := 0, Suffix := "" } v710 =
        Number.Gte { Major := 8, Minor := 1, Patch := 2, Suffix := "" } v710 →
       (versioning { Major := 7, Minor := 0, Patch := 0, Suffix := "" }).1 =
         (versioning { Major := 8, Minor := 1, Patch := 2, Suffix := "" }).1) ∧
     ((versioning { Major := 7, Minor := 0, Patch := 0, Suffix := "" }).1 = SchemaVer.v2 →
       (versioning { Major := 8, Minor := 1, Patch := 2, Suffix := "" }).1 = SchemaVer.v2)) :=
  ⟨by decide,
   eth_c5_version_selection
     { Major := 7, Minor := 0, Patch := 0, Suffix := "" }
     { Major := 8, Minor := 1, Patch := 2, Suffix := "" } (by decide)⟩

lemma normalize_v1_mode (o1 : container_v1) :
    (container_v1.Normalize o1).Mode = resolveMode_v1 o1.Answer ∧
    modesExclusive (container_v1.Normalize o1) := by
  obtain ⟨a⟩ := o1
  obtain ⟨nm, mL2, mL3, mVw, mTap, mHa, mDm, mAg, ls, ld, lst, cm⟩ := a
  rcases mL3 with _ | m3 <;> rcases mL2 with _ | m2 <;> rcases mVw with _ | mv <;>
    rcases mTap with _ | mt <;> rcases mHa with _ | mh <;> rcases mDm with _ | md <;>
    rcases mAg with _ | mg <;>
    simp [container_v1.Normalize, resolveMode_v1, modesExclusive, zeroL3, zeroLldp]

lemma normalize_v2_mode (o2 : container_v2) :
    (container_v2.Normalize o2).Mode = resolveMode_v2 o2.Answer ∧
    modesExclusive (container_v2.Normalize o2) := by
  obtain ⟨a⟩ := o2
  obtain ⟨nm, mL3, mL2, mVw, mTap, mHa, mDm, mAg, ls, ld, lst, cm⟩ := a
  rcases mL3 with _ | m3 <;> rcases mL2 with _ | m2 <;> rcases mVw with _ | mv <;>
    rcases mTap with _ | mt <;> rcases mHa with _ | mh <;> rcases mDm with _ | md <;>
    rcases mAg with _ | mg <;>
    simp [container_v2.Normalize, resolveMode_v2, modesExclusive, zeroL3, zeroLldp]

/-- C10 (confirmed).  Both Normalize mappings resolve the mode by
testing the mode sub-structures in the fixed order layer3, layer2,
virtual-wire, tap, ha, decrypt-mirror, aggregate-group and taking the
first non-null one; the resulting Entry has at most one mode's fields
populated even when several sub-structures are non-null, and with no
mode sub-structure present the Mode is the empty string, with no
error. -/
theorem eth_c10_normalize_mode_resolution (o1 : container_v1) (o2 : container_v2) :
    ((container_v1.Normalize o1).Mode = resolveMode_v1 o1.Answer ∧
     modesExclusive (container_v1.Normalize o1)) ∧
    ((container_v2.Normalize o2).Mode = resolveMode_v2 o2.Answer ∧
     modesExclusive (container_v2.Normalize o2)) :=
  ⟨normalize_v1_mode o1, normalize_v2_mode o2⟩

lemma roundtrip_v1 (e : Entry) (h : NormalizedEntry e)
    (h4 : e.Ipv4MssAdjust = 0) (h6 : e.Ipv6MssAdjust = 0) :
    container_v1.Normalize { Answer := specify_v1 e } = e := by
  obtain ⟨Nm, Md, SIp, EDh, CDR, DMt, I6, MP, Mt, ATM, NFP, LlE, LlP, LkS, LkD, LkSt,
    AG, Cmt, M4, M6, Rw⟩ := e
  simp only [NormalizedEntry] at h
  dsimp only at h4 h6
  subst h4 h6
  obtain ⟨hag, hmode⟩ := h
  subst hag
  split_ifs at hmode with hm1 hm2 hm3 hm4
  · subst hm1
    simp only [zeroLldp] at hmode
    obtain ⟨⟨he1, he2⟩, a, b, c, hraw, ca, cb, cc⟩ := hmode
    subst he1 he2 hraw
    by_cases hd : (EDh || CDR || decide (DMt ≠ 0)) = true <;>
      rcases a with _ | ta <;> rcases b with _ | tb <;> rcases c with _ | tc <;>
      simp_all [container_v1.Normalize, specify_v1, rawLookup, rawEntryOf, mkL3Raw,
        mkRaw, optEntry, cleanOpt, asBool_yesNo, entToStr_strToEnt, List.find?]
  · subst hm2
    simp only [zeroL3] at hmode
    obtain ⟨⟨z1, z2, z3, z4, z5, z6, z7, z8, z9, z10⟩, u, hraw, cu⟩ := hmode
    subst z1 z2 z3 z4 z5 z6 z7 z8 hraw
    rcases u with _ | tu <;>
      simp_all [container_v1.Normalize, specify_v1, rawLookup, rawEntryOf, mkL2Raw,
        mkRaw, optEntry, cleanOpt, asBool_yesNo, entToStr_strToEnt, List.find?, StrToEnt]
  · subst hm3
    simp only [zeroL3] at hmode
    obtain ⟨⟨z1, z2, z3, z4, z5, z6, z7, z8, z9, z10⟩, hraw⟩ := hmode
    subst z1 z2 z3 z4 z5 z6 z7 z8 hraw
    simp_all [container_v1.Normalize, specify_v1, asBool_yesNo, StrToEnt]
  · simp only [zeroL3, zeroLldp] at hmode
    obtain ⟨⟨z1, z2, z3, z4, z5, z6, z7, z8, z9, z10⟩, ⟨y1, y2⟩, hnf, hraw⟩ := hmode
    subst z1 z2 z3 z4 z5 z6 z7 z8 y1 y2 hnf hraw
    rcases hm4 with hm | hm | hm | hm <;> subst hm <;>
      simp_all [container_v1.Normalize, specify_v1, StrToEnt]

lemma roundtrip_v2 (e : Entry) (h : NormalizedEntry e) :
    container_v2.Normalize { Answer := specify_v2 e } = e := by
  obtain ⟨Nm, Md, SIp, EDh, CDR, DMt, I6, MP, Mt, ATM, NFP, LlE, LlP, LkS, LkD, LkSt,
    AG, Cmt, M4, M6, Rw⟩ := e
  simp only [NormalizedEntry] at h
  obtain ⟨hag, hmode⟩ := h
  subst hag
  split_ifs at hmode with hm1 hm2 hm3 hm4
  · subst hm1
    simp only [zeroLldp] at hmode
    obtain ⟨⟨he1, he2⟩, a, b, c, hraw, ca, cb, cc⟩ := hmode
    subst he1 he2 hraw
    by_cases hd : (EDh || CDR || decide (DMt ≠ 0)) = true <;>
      rcases a with _ | ta <;> rcases b with _ | tb <;> rcases c with _ | tc <;>
      simp_all [container_v2.Normalize, specify_v2, rawLookup, rawEntryOf, mkL3Raw,
        mkRaw, optEntry, cleanOpt, asBool_yesNo, entToStr_strToEnt, List.find?]
  · subst hm2
    simp only [zeroL3] at hmode
    obtain ⟨⟨z1, z2, z3, z4, z5, z6, z7, z8, z9, z10⟩, u, hraw, cu⟩ := hmode
    subst z1 z2 z3 z4 z5 z6 z7 z8 z9 z10 hraw
    rcases u with _ | tu <;>
      simp_all [container_v2.Normalize, specify_v2, rawLookup, rawEntryOf, mkL2Raw,
        mkRaw, optEntry, cleanOpt, asBool_yesNo, entToStr_strToEnt, List.find?, StrToEnt]
  · subst hm3
    simp only [zeroL3] at hmode
    obtain ⟨⟨z1, z2, z3, z4, z5, z6, z7, z8, z9, z10⟩, hraw⟩ := hmode
    subst z1 z2 z3 z4 z5 z6 z7 z8 z9 z10 hraw
    simp_all [container_v2.Normalize, specify_v2, asBool_yesNo, StrToEnt]
  · simp only [zeroL3, zeroLldp] at hmode
    obtain ⟨⟨z1, z2, z3, z4, z5, z6, z7, z8, z9, z10⟩, ⟨y1, y2⟩, hnf, hraw⟩ := hmode
    subst z1 z2 z3 z4 z5 z6 z7 z8 z9 z10 y1 y2 hnf hraw
    rcases hm4 with hm | hm | hm | hm <;> subst hm <;>
      simp_all [container_v2.Normalize, specify_v2, StrToEnt]

/-- C1 (counterexample).  Under the v1 schema (device version 7.0.0)
a normalized layer3 entry with a nonzero per-protocol MSS adjustment
does not round-trip: the v1 schema does not carry that field. -/
theorem eth_c1_counterexample :
    NormalizedEntry entMss ∧
    roundtripAt (versioning { Major := 7, Minor := 0, Patch := 0, Suffix := "" }).1 entMss ≠
      entMss := by
  constructor
  · refine ⟨rfl, ?_⟩
    rw [if_pos (show entMss.Mode = "layer3" from rfl)]
    exact ⟨⟨rfl, rfl⟩, none, none, none, rfl, trivial, trivial, trivial⟩
  · decide

/-- C1 (amended).  For every device version and every normalized entry
whose mode is one of the seven variants, whose fields of other modes
are zero valued and whose opaque fragments are populated per its mode,
Normalize after Specify under the selected schema is the identity —
provided that, when the v1 schema is selected (versions below 7.1.0),
the per-protocol MSS adjustment fields are zero, since only the v2
schema carries them. -/
theorem eth_c1_roundtrip (v : Number) (e : Entry) (h : NormalizedEntry e)
    (hv1 : (versioning v).1 = SchemaVer.v1 → e.Ipv4MssAdjust = 0 ∧ e.Ipv6MssAdjust = 0) :
    roundtripAt (versioning v).1 e = e := by
  cases hs : (versioning v).1 with
  | v1 =>
    obtain ⟨h4, h6⟩ := hv1 hs
    exact roundtrip_v1 e h h4 h6
  | v2 => exact roundtrip_v2 e h

/-- Witness for the amended C1 at a fully populated layer3 entry under
the v2 schema (device version 8.0.0). -/
theorem eth_c1_roundtrip_witness :
    NormalizedEntry entFull ∧
    ((versioning { Major := 8, Minor := 0, Patch := 0, Suffix := "" }).1 = SchemaVer.v1 →
      entFull.Ipv4MssAdjust = 0 ∧ entFull.Ipv6MssAdjust = 0) ∧
    roundtripAt (versioning { Major := 8, Minor := 0, Patch := 0, Suffix := "" }).1 entFull =
      entFull := by
  have hN : NormalizedEntry entFull := by
    refine ⟨rfl, ?_⟩
    rw [if_pos (show entFull.Mode = "layer3" from rfl)]
    exact ⟨⟨rfl, rfl⟩, some "x", some "y", some "z", rfl,
      (show CleanRawXml "x" = "x" by decide), (show CleanRawXml "y" = "y" by decide),
      (show CleanRawXml "z" = "z" by decide)⟩
  refine ⟨hN, ?_, ?_⟩
  · intro hcontra
    exact absurd hcontra (by decide)
  · exact eth_c1_roundtrip { Major := 8, Minor := 0, Patch := 0, Suffix := "" } entFull hN
      (fun hcontra => absurd hcontra (by decide))

end Pango
